import Mathlib

set_option maxHeartbeats 1000000

/-!
Shallow embedding of `temp_repro/stall_test.cpp`: a diagnostic harness that
drives a camera in continuous circular-buffer acquisition and detects silent
stalls (a missed per-frame deadline).  The embedding models

* the end-of-frame callback `StallTestEofHandler` (lines 7-28) as a pure
  function from its two (possibly null) pointer arguments and the outcome of
  the `pl_exp_get_latest_frame` call to the updated context plus a
  notified-the-consumer flag;
* the acquisition control loop of `main` (lines 100-118) as a recursion over
  the outcomes of the successive `WaitForEofEvent` calls (one `Bool` per wait:
  `true` = a frame signal arrived before the 2000 ms deadline);
* the whole of `main` (lines 30-131) as a function of an environment record
  giving the outcome of each fallible external call, returning the exit code,
  the terminal classification and counts of the teardown calls performed;
* the Shared Frame Event protocol (flag + descriptor, `WaitForEofEvent` is
  implemented in `Common.cpp` which is not part of the sources, so its
  effect on the event state is modelled from the spec) as a small trace
  semantics, to settle the single-consumption claim;
* the per-access synchronisation facts of the two threads (which accesses to
  the shared flag/descriptor are performed while `eofEvent.mutex` is held) as
  explicit access lists read off the source lines.
-/

/-- `FRAME_INFO` as used by the harness: the frame sequence number
(`FrameNr`, printed at line 114) and a timestamp field. -/
structure FrameInfo where
  FrameNr : Nat
  TimeStamp : Nat
deriving DecidableEq

/-- The condition-variable part of the shared event owned by the context:
only its boolean `flag` is data (mutex and condvar are synchronisation
primitives, not state). -/
structure EofEvent where
  flag : Bool
deriving DecidableEq

/-- The fields of `CameraContext` that `stall_test.cpp` touches: the camera
handle, the frame counter `eofCounter`, the last-frame descriptor
`eofFrameInfo`, the latest-frame pointer `eofFrame` (modelled as an address)
and the shared event. -/
structure CameraContext where
  hcam : Nat
  eofCounter : Nat
  eofFrameInfo : FrameInfo
  eofFrame : Nat
  eofEvent : EofEvent
deriving DecidableEq

/-- `StallTestEofHandler` (stall_test.cpp lines 7-28).  Null pointers are
`none`; `fetchResult` is the outcome of `pl_exp_get_latest_frame` (`some p`:
success writing pointer `p` into `ctx->eofFrame`; `none`: failure, which the
handler ignores).  Returns the resulting context together with whether
`cond.notify_all` was reached. -/
def StallTestEofHandler (pFrameInfo : Option FrameInfo) (pContext : Option CameraContext)
    (fetchResult : Option Nat) : Option CameraContext × Bool :=
  match pFrameInfo, pContext with
  | some fi, some ctx =>
    let ctx1 := { ctx with eofCounter := ctx.eofCounter + 1, eofFrameInfo := fi }
    let ctx2 :=
      match fetchResult with
      | some p => { ctx1 with eofFrame := p }
      | none => ctx1
    (some { ctx2 with eofEvent := { flag := true } }, true)
  | _, _ => (pContext, false)

/-- Terminal classification of a run (spec section 4.4 state machine). -/
inductive TerminalState where
  | Completed
  | Stalled
  | SetupFailed
deriving DecidableEq

/-- Result of the acquisition loop: the final `framesAcquired` counter, the
terminal state, and how many `WaitForEofEvent` calls were performed. -/
structure LoopResult where
  framesAcquired : Nat
  terminal : TerminalState
  waitCalls : Nat
deriving DecidableEq

/-- One step of `while (framesAcquired < 200)` (lines 100-118): `remaining` =
`target - framesAcquired`; the `calls`-th wait returns `waits calls`; a fired
wait increments `framesAcquired`, a timeout breaks out of the loop. -/
def loopGo (waits : Nat → Bool) : Nat → Nat → Nat → LoopResult
  | 0, acquired, calls => ⟨acquired, TerminalState.Completed, calls⟩
  | remaining + 1, acquired, calls =>
    if waits calls then loopGo waits remaining (acquired + 1) (calls + 1)
    else ⟨acquired, TerminalState.Stalled, calls + 1⟩

/-- The acquisition loop of `main`, started with `framesAcquired = 0`. -/
def acquisitionLoop (waits : Nat → Bool) (target : Nat) : LoopResult :=
  loopGo waits target 0 0

/-- The frame number named by the timeout report (line 105 prints
`framesAcquired + 1`). -/
def stallReportedFrame (framesAcquired : Nat) : Nat := framesAcquired + 1

/-- Number of waits among the first `n` that return a fired signal. -/
def consumedSignals (waits : Nat → Bool) (n : Nat) : Nat :=
  ((List.range n).filter waits).length

/-- Which external fallible call of `main` failed first, if any. -/
inductive SetupStage where
  | openCamera
  | registerCallback
  | selectExpMode
  | setupCont
  | allocation
  | startCont
deriving DecidableEq

/-- Environment of one run of `main`: the success of each fallible external
call, the per-frame byte size reported by `pl_exp_setup_cont` (a `uns32`),
and the outcome of each successive wait. -/
structure Env where
  openOk : Bool
  registerOk : Bool
  selectOk : Bool
  setupOk : Bool
  allocOk : Bool
  startOk : Bool
  exposureBytes : Nat
  waits : Nat → Bool

/-- Observable result of one run of `main`: process exit code, terminal
classification, loop counters, and how many times each teardown call
(`pl_exp_abort`, `delete [] circBufferInMemory`,
`CloseAllCamerasAndUninit`) was performed. -/
structure RunResult where
  exitCode : Nat
  terminal : TerminalState
  framesAcquired : Nat
  waitCalls : Nat
  abortCalls : Nat
  releaseCalls : Nat
  closeCalls : Nat
  bufferAllocated : Bool
  bufferBytes : Nat
  failedStage : Option SetupStage
deriving DecidableEq

/-- The `main` function (stall_test.cpp lines 30-131; named `mainRun` here
because Lean reserves `main` for executables), path by path:
open failure returns 1 with no teardown (lines 34-38); each later setup
failure closes the cameras and returns 1 (lines 43-49, 60-64, 67-73, 79-84,
88-94; the start failure additionally deletes the already-allocated buffer);
otherwise the loop runs and lines 120-122 abort, delete the buffer and close
before returning 0.  `circBufferBytes` is the `uns32` product
`circBufferFrames * exposureBytes` (line 77), hence the `% 2 ^ 32`. -/
def mainRun (env : Env) : RunResult :=
  if env.openOk = false then
    ⟨1, TerminalState.SetupFailed, 0, 0, 0, 0, 0, false, 0, some SetupStage.openCamera⟩
  else if env.registerOk = false then
    ⟨1, TerminalState.SetupFailed, 0, 0, 0, 0, 1, false, 0, some SetupStage.registerCallback⟩
  else if env.selectOk = false then
    ⟨1, TerminalState.SetupFailed, 0, 0, 0, 0, 1, false, 0, some SetupStage.selectExpMode⟩
  else if env.setupOk = false then
    ⟨1, TerminalState.SetupFailed, 0, 0, 0, 0, 1, false, 0, some SetupStage.setupCont⟩
  else if env.allocOk = false then
    ⟨1, TerminalState.SetupFailed, 0, 0, 0, 0, 1, false,
      20 * env.exposureBytes % 2 ^ 32, some SetupStage.allocation⟩
  else if env.startOk = false then
    ⟨1, TerminalState.SetupFailed, 0, 0, 0, 1, 1, true,
      20 * env.exposureBytes % 2 ^ 32, some SetupStage.startCont⟩
  else
    let r := acquisitionLoop env.waits 200
    ⟨0, r.terminal, r.framesAcquired, r.waitCalls, 1, 1, 1, true,
      20 * env.exposureBytes % 2 ^ 32, none⟩

/-- State of the Shared Frame Event: the fired flag and the last-frame
descriptor (spec section 3). -/
structure EventState where
  fired : Bool
  descriptor : FrameInfo
deriving DecidableEq

/-- One operation on the Shared Frame Event: a producer `signal` carrying a
descriptor, or a consumer wait. -/
inductive EventOp where
  | signal (d : FrameInfo)
  | wait
deriving DecidableEq

/-- Outcome of one consumer wait. -/
inductive WaitOutcome where
  | firedWith (d : FrameInfo)
  | timedOut
deriving DecidableEq

/-- The producer side of the event: sets the flag and overwrites the
descriptor (stall_test.cpp lines 23-27, under the mutex). -/
def signalEvent (_ : EventState) (d : FrameInfo) : EventState := ⟨true, d⟩

/-- Modelled from the spec: `WaitForEofEvent` (implemented in the
repository's `Common.cpp`, which is not among the sources; only its call
site at stall_test.cpp line 103 is) realises the spec's `wait_or_timeout`:
it blocks until the flag becomes true or the deadline elapses, then
atomically clears the flag before returning a fired result.  With the wait
atomic with respect to signals, its effect on the event state is: if the
flag is up by the deadline, clear it and return `firedWith` the current
descriptor; otherwise leave the state unchanged and return `timedOut`. -/
def waitOrTimeout (s : EventState) : EventState × WaitOutcome :=
  if s.fired then (⟨false, s.descriptor⟩, WaitOutcome.firedWith s.descriptor)
  else (s, WaitOutcome.timedOut)

/-- Run a trace of event operations from a given event state, collecting the
outcome of every wait. -/
def runEventOps (s : EventState) : List EventOp → EventState × List WaitOutcome
  | [] => (s, [])
  | EventOp.signal d :: rest => runEventOps (signalEvent s d) rest
  | EventOp.wait :: rest =>
    ((runEventOps (waitOrTimeout s).1 rest).1,
      (waitOrTimeout s).2 :: (runEventOps (waitOrTimeout s).1 rest).2)

/-- Number of producer signals in a trace. -/
def signalCount : List EventOp → Nat
  | [] => 0
  | EventOp.signal _ :: rest => signalCount rest + 1
  | EventOp.wait :: rest => signalCount rest

/-- Number of fired (consumed) wait outcomes. -/
def firedCount : List WaitOutcome → Nat
  | [] => 0
  | WaitOutcome.firedWith _ :: rest => firedCount rest + 1
  | WaitOutcome.timedOut :: rest => firedCount rest

/-- The pieces of state shared between the callback thread and the control
loop thread. -/
inductive SharedField where
  | firedFlag
  | descriptor
  | frameCounter
deriving DecidableEq

/-- Read or write. -/
inductive AccessKind where
  | read
  | write
deriving DecidableEq

/-- One access by some thread to a shared field, recording whether
`eofEvent.mutex` is held at that point in the source. -/
structure SharedAccess where
  field : SharedField
  kind : AccessKind
  underMutex : Bool
deriving DecidableEq

/-- The accesses `StallTestEofHandler` makes to the shared state, in source
order: `ctx->eofCounter++` (line 13, no lock), `ctx->eofFrameInfo =
*pFrameInfo` (line 14, no lock), `ctx->eofEvent.flag = true` (line 25,
inside the `lock_guard` of lines 23-26). -/
def handlerSharedAccesses : List SharedAccess :=
  [⟨SharedField.frameCounter, AccessKind.write, false⟩,
   ⟨SharedField.descriptor, AccessKind.write, false⟩,
   ⟨SharedField.firedFlag, AccessKind.write, true⟩]

/-- The accesses the control loop body makes to the shared state outside
`WaitForEofEvent`: the read of `ctx->eofFrameInfo.FrameNr` at line 114,
performed with no lock held. -/
def controlLoopSharedAccesses : List SharedAccess :=
  [⟨SharedField.descriptor, AccessKind.read, false⟩]

/-- Whether every access to the fired flag or to the descriptor in a list of
accesses is performed under the mutex. -/
def allSharedAccessesLocked (accesses : List SharedAccess) : Bool :=
  accesses.all fun a =>
    match a.field with
    | SharedField.firedFlag => a.underMutex
    | SharedField.descriptor => a.underMutex
    | SharedField.frameCounter => true

/-- If every wait from call index `calls` up to `calls + remaining` fires,
the loop consumes all of them and completes. -/
theorem loopGo_all_fired (waits : Nat → Bool) :
    ∀ remaining acquired calls : Nat,
      (∀ i, calls ≤ i → i < calls + remaining → waits i = true) →
      loopGo waits remaining acquired calls =
        ⟨acquired + remaining, TerminalState.Completed, calls + remaining⟩ := by
  intro remaining
  induction remaining with
  | zero => intro a c _; simp [loopGo]
  | succ n ih =>
    intro a c h
    have hc : waits c = true := h c le_rfl (by omega)
    have hrec := ih (a + 1) (c + 1) (fun i h1 h2 => h i (by omega) (by omega))
    have ha : a + (n + 1) = a + 1 + n := by omega
    have hb : c + (n + 1) = c + 1 + n := by omega
    rw [ha, hb, ← hrec]
    simp [loopGo, hc]

/-- If waits `calls .. k - 1` fire and wait `k` times out, the loop stalls at
`k` having acquired `k - calls` further frames, after `k + 1 - calls`
additional wait calls. -/
theorem loopGo_stall (waits : Nat → Bool) (k : Nat) (hk : waits k = false) :
    ∀ remaining acquired calls : Nat,
      calls ≤ k → k < calls + remaining →
      (∀ i, calls ≤ i → i < k → waits i = true) →
      loopGo waits remaining acquired calls =
        ⟨acquired + (k - calls), TerminalState.Stalled, k + 1⟩ := by
  intro remaining
  induction remaining with
  | zero => intro a c h1 h2 _; omega
  | succ n ih =>
    intro a c h1 h2 h3
    rcases Nat.eq_or_lt_of_le h1 with rfl | hlt
    · simp [loopGo, hk]
    · have hc : waits c = true := h3 c le_rfl hlt
      have hrec := ih (a + 1) (c + 1) hlt (by omega) (fun i hi1 hi2 => h3 i (by omega) hi2)
      have ha : a + (k - c) = a + 1 + (k - (c + 1)) := by omega
      rw [ha, ← hrec]
      simp [loopGo, hc]

/-- The loop itself never classifies a run as `SetupFailed`. -/
theorem loopGo_not_setupFailed (waits : Nat → Bool) :
    ∀ remaining acquired calls : Nat,
      (loopGo waits remaining acquired calls).terminal ≠ TerminalState.SetupFailed := by
  intro remaining
  induction remaining with
  | zero => intro a c; simp [loopGo]
  | succ n ih =>
    intro a c
    cases hc : waits c with
    | true => simpa [loopGo, hc] using ih (a + 1) (c + 1)
    | false => simp [loopGo, hc]

/-- C1: if the first `k` waits fire and the `k`-th (0-based) wait misses the
2000 ms deadline, the loop terminates with terminal state `Stalled`,
`framesAcquired = k` (the count observed before the missed deadline, not
incremented on the timeout), after `k + 1` wait calls; the stall report
names frame `k + 1`. -/
theorem timeout_stalls_without_increment (waits : Nat → Bool) (k : Nat)
    (hk : k < 200) (hfired : ∀ i < k, waits i = true) (hstall : waits k = false) :
    acquisitionLoop waits 200 = ⟨k, TerminalState.Stalled, k + 1⟩ ∧
      stallReportedFrame k = k + 1 := by
  constructor
  · have := loopGo_stall waits k hstall 200 0 0 (Nat.zero_le k) (by omega)
      (fun i _ h2 => hfired i h2)
    simpa [acquisitionLoop] using this
  · rfl

/-- Witness for C1, the spec's scenario: the producer fires for exactly the
first 84 frames and then stops; the run stalls with `framesAcquired = 84`
and the stall is reported at frame 85. -/
theorem timeout_stalls_without_increment_witness :
    acquisitionLoop (fun i => decide (i < 84)) 200 = ⟨84, TerminalState.Stalled, 85⟩ ∧
      stallReportedFrame 84 = 85 :=
  timeout_stalls_without_increment (fun i => decide (i < 84)) 84 (by decide)
    (by decide) (by decide)

/-- C2: if every one of the first 200 waits returns a fired signal before
its deadline, the loop performs exactly 200 iterations, terminates
`Completed` with `framesAcquired = 200`, and `framesAcquired` equals the
number of consumed signals (one increment per consumed signal). -/
theorem all_fired_completes (waits : Nat → Bool)
    (h : ∀ i < 200, waits i = true) :
    acquisitionLoop waits 200 = ⟨200, TerminalState.Completed, 200⟩ ∧
      (acquisitionLoop waits 200).framesAcquired = consumedSignals waits 200 := by
  have hloop : acquisitionLoop waits 200 = ⟨200, TerminalState.Completed, 200⟩ := by
    have := loopGo_all_fired waits 200 0 0 (fun i _ h2 => h i (by omega))
    simpa [acquisitionLoop] using this
  refine ⟨hloop, ?_⟩
  have hfilter : (List.range 200).filter waits = List.range 200 :=
    List.filter_eq_self.mpr (fun a ha => h a (List.mem_range.mp ha))
  rw [hloop]
  simp [consumedSignals, hfilter]

/-- Witness for C2, the spec's scenario: every wait fires (producer firing
every 10 ms against a 2000 ms deadline); the run completes with exactly 200
frames in 200 iterations. -/
theorem all_fired_completes_witness :
    acquisitionLoop (fun _ => true) 200 = ⟨200, TerminalState.Completed, 200⟩ ∧
      (acquisitionLoop (fun _ => true) 200).framesAcquired =
        consumedSignals (fun _ => true) 200 :=
  all_fired_completes (fun _ => true) (fun _ _ => rfl)

/-- C5: a callback invocation with non-null arguments in which the
latest-frame fetch fails does not propagate an error: it still records the
frame (counter incremented, descriptor overwritten), sets the event flag,
and notifies the consumer — exactly the state a healthy frame would leave
except for the untouched latest-frame pointer. -/
theorem failed_fetch_still_signals (fi : FrameInfo) (ctx : CameraContext) :
    StallTestEofHandler (some fi) (some ctx) none =
      (some { ctx with
        eofCounter := ctx.eofCounter + 1,
        eofFrameInfo := fi,
        eofEvent := { flag := true } }, true) := rfl

/-- Counterexample to C6: at a concrete callback invocation, every
consumer-visible part of the Shared Frame Event — the fired flag, the
descriptor `eofFrameInfo` and the counter — is identical whether the
latest-frame fetch failed or succeeded, and the handler signals in both
cases; so the failure is not made observable to the consumer via the
descriptor (no degraded flag exists). -/
theorem degraded_fetch_not_observable_counterexample :
    (StallTestEofHandler (some ⟨5, 50⟩) (some ⟨3, 0, ⟨0, 0⟩, 0, ⟨false⟩⟩) none).1.map
        (fun c => (c.eofEvent.flag, c.eofFrameInfo, c.eofCounter)) =
      (StallTestEofHandler (some ⟨5, 50⟩) (some ⟨3, 0, ⟨0, 0⟩, 0, ⟨false⟩⟩) (some 77)).1.map
        (fun c => (c.eofEvent.flag, c.eofFrameInfo, c.eofCounter)) ∧
    (StallTestEofHandler (some ⟨5, 50⟩) (some ⟨3, 0, ⟨0, 0⟩, 0, ⟨false⟩⟩) none).2 =
      (StallTestEofHandler (some ⟨5, 50⟩) (some ⟨3, 0, ⟨0, 0⟩, 0, ⟨false⟩⟩) (some 77)).2 := by
  decide

/-- C6 as amended: the failed fetch is silently discarded — for every
callback invocation with non-null arguments, the fired flag, the descriptor
and the counter after a failed fetch equal those after a successful fetch,
and the consumer is notified either way; only the internal latest-frame
pointer `eofFrame` differs, which the consumer loop never reads. -/
theorem degraded_fetch_invisible (fi : FrameInfo) (ctx : CameraContext) (p : Nat) :
    (StallTestEofHandler (some fi) (some ctx) none).1.map
        (fun c => (c.eofEvent.flag, c.eofFrameInfo, c.eofCounter)) =
      (StallTestEofHandler (some fi) (some ctx) (some p)).1.map
        (fun c => (c.eofEvent.flag, c.eofFrameInfo, c.eofCounter)) ∧
    (StallTestEofHandler (some fi) (some ctx) none).2 =
      (StallTestEofHandler (some fi) (some ctx) (some p)).2 :=
  ⟨rfl, rfl⟩

/-- C7: a callback invocation whose frame-info argument or context argument
is null is a no-op: the context is returned unchanged (no field mutated) and
the consumer is not notified. -/
theorem null_args_are_noop (pFrameInfo : Option FrameInfo) (pContext : Option CameraContext)
    (fetchResult : Option Nat) (h : pFrameInfo = none ∨ pContext = none) :
    StallTestEofHandler pFrameInfo pContext fetchResult = (pContext, false) := by
  rcases h with h | h
  · subst h
    cases pContext <;> rfl
  · subst h
    cases pFrameInfo <;> rfl

/-- Witness for C7: a callback firing with a null frame-info argument
against a concrete live context leaves that context untouched. -/
theorem null_args_are_noop_witness :
    StallTestEofHandler none (some ⟨1, 2, ⟨3, 4⟩, 5, ⟨false⟩⟩) (some 9) =
      (some ⟨1, 2, ⟨3, 4⟩, 5, ⟨false⟩⟩, false) :=
  null_args_are_noop none (some ⟨1, 2, ⟨3, 4⟩, 5, ⟨false⟩⟩) (some 9) (Or.inl rfl)

/-- `firedCount` against any start state is bounded by the signals in the
trace plus one pending signal if the flag starts up. -/
theorem firedCount_runEventOps_le (ops : List EventOp) :
    ∀ s : EventState,
      firedCount (runEventOps s ops).2 ≤
        signalCount ops + (if s.fired then 1 else 0) := by
  induction ops with
  | nil => intro s; simp [runEventOps, firedCount]
  | cons op rest ih =>
    intro s
    cases op with
    | signal d =>
      have := ih (signalEvent s d)
      simp only [runEventOps, signalCount, signalEvent] at this ⊢
      cases s.fired <;> simp at this ⊢ <;> omega
    | wait =>
      cases hf : s.fired with
      | true =>
        have := ih ⟨false, s.descriptor⟩
        simp only [runEventOps, signalCount, waitOrTimeout, hf, if_true, firedCount] at this ⊢
        simp at this ⊢
        omega
      | false =>
        have := ih s
        simp only [runEventOps, signalCount, waitOrTimeout, hf] at this ⊢
        simp [firedCount, hf] at this ⊢
        omega

/-- Counterexample to C4: two back-to-back signals before the consumer's
next wait are coalesced — on the trace signal, signal, wait, wait from an
unfired event there are 2 signal calls but only 1 consumed (fired) read, so
there is not exactly one consumed read per signal call. -/
theorem coalesced_signals_counterexample :
    signalCount
        [EventOp.signal ⟨1, 10⟩, EventOp.signal ⟨2, 20⟩, EventOp.wait, EventOp.wait] = 2 ∧
    firedCount (runEventOps ⟨false, ⟨0, 0⟩⟩
        [EventOp.signal ⟨1, 10⟩, EventOp.signal ⟨2, 20⟩, EventOp.wait, EventOp.wait]).2 = 1 ∧
    firedCount (runEventOps ⟨false, ⟨0, 0⟩⟩
        [EventOp.signal ⟨1, 10⟩, EventOp.signal ⟨2, 20⟩, EventOp.wait, EventOp.wait]).2 ≠
      signalCount
        [EventOp.signal ⟨1, 10⟩, EventOp.signal ⟨2, 20⟩, EventOp.wait, EventOp.wait] := by
  decide

/-- C4 as amended: the consumer never consumes a signal twice — on every
trace from an unfired event the number of fired reads is at most the number
of signal calls; a wait on a fired event atomically clears the flag while
returning the current descriptor; and a second wait immediately after any
wait (with no intervening signal) always times out, so a consumed signal is
never re-observed. -/
theorem wait_consumes_at_most_once (ops : List EventOp) (d0 : FrameInfo) :
    firedCount (runEventOps ⟨false, d0⟩ ops).2 ≤ signalCount ops ∧
    (∀ d : FrameInfo,
      waitOrTimeout ⟨true, d⟩ = (⟨false, d⟩, WaitOutcome.firedWith d)) ∧
    (∀ s : EventState,
      (waitOrTimeout (waitOrTimeout s).1).2 = WaitOutcome.timedOut) := by
  refine ⟨?_, fun d => rfl, ?_⟩
  · have := firedCount_runEventOps_le ops ⟨false, d0⟩
    simpa using this
  · intro s
    rcases s with ⟨f, d⟩
    cases f <;> simp [waitOrTimeout]

/-- Counterexample to C3: on the terminal SetupFailed path where
`pl_exp_setup_cont` fails (lines 67-73), `pl_exp_abort` is never called —
so teardown's abort is not invoked exactly once on every terminal path. -/
theorem teardown_abort_skipped_on_setup_failure :
    (mainRun ⟨true, true, true, false, true, true, 100, fun _ => true⟩).terminal =
        TerminalState.SetupFailed ∧
    (mainRun ⟨true, true, true, false, true, true, 100, fun _ => true⟩).abortCalls = 0 ∧
    ¬ (mainRun ⟨true, true, true, false, true, true, 100, fun _ => true⟩).abortCalls = 1 := by
  decide

/-- C3 as amended: abort and buffer release each happen at most once per
run; on the Completed and Stalled terminal paths both happen exactly once;
on the SetupFailed paths abort is never called (acquisition was never
started there), and the buffer is released exactly once if and only if it
was allocated. -/
theorem teardown_at_most_once (env : Env) :
    (mainRun env).abortCalls ≤ 1 ∧ (mainRun env).releaseCalls ≤ 1 ∧
    ((mainRun env).bufferAllocated = true → (mainRun env).releaseCalls = 1) ∧
    ((mainRun env).bufferAllocated = false → (mainRun env).releaseCalls = 0) ∧
    ((mainRun env).terminal ≠ TerminalState.SetupFailed →
      (mainRun env).abortCalls = 1 ∧ (mainRun env).releaseCalls = 1) ∧
    ((mainRun env).terminal = TerminalState.SetupFailed →
      (mainRun env).abortCalls = 0) := by
  obtain ⟨o, r, s, st, a, k, e, w⟩ := env
  cases o <;> cases r <;> cases s <;> cases st <;> cases a <;> cases k <;>
    simp [mainRun, acquisitionLoop, loopGo_not_setupFailed w 200 0 0]

/-- Witness for the amended C3: a run that starts acquisition and stalls at
once performs the abort and the buffer release exactly once each. -/
theorem teardown_at_most_once_witness :
    (mainRun ⟨true, true, true, true, true, true, 100, fun _ => false⟩).abortCalls = 1 ∧
    (mainRun ⟨true, true, true, true, true, true, 100, fun _ => false⟩).releaseCalls = 1 :=
  (teardown_at_most_once
    ⟨true, true, true, true, true, true, 100, fun _ => false⟩).2.2.2.2.1 (by decide)

/-- C8: the circular buffer request is `circBufferFrames` (20) times the
per-frame byte size obtained from `pl_exp_setup_cont` (a `uns32` product,
equal to the exact product whenever it fits in 32 bits); the buffer is only
allocated on paths where acquisition setup succeeded (per-frame size known);
and if the allocation fails the run ends SetupFailed with exit code 1 before
any wait on the frame event is performed. -/
theorem buffer_sizing_and_alloc_failure (env : Env)
    (hfit : 20 * env.exposureBytes < 2 ^ 32) :
    ((mainRun env).bufferAllocated = true →
      env.setupOk = true ∧ (mainRun env).bufferBytes = 20 * env.exposureBytes) ∧
    (env.openOk = true → env.registerOk = true → env.selectOk = true →
      env.setupOk = true → env.allocOk = false →
      (mainRun env).terminal = TerminalState.SetupFailed ∧
        (mainRun env).waitCalls = 0 ∧ (mainRun env).exitCode = 1 ∧
        (mainRun env).bufferAllocated = false) := by
  obtain ⟨o, r, s, st, a, k, e, w⟩ := env
  have hfit' : 20 * e < 2 ^ 32 := hfit
  cases o <;> cases r <;> cases s <;> cases st <;> cases a <;> cases k <;>
    simp [mainRun, Nat.mod_eq_of_lt hfit'] <;> omega

/-- Witness for C8, the spec's scenario: with setup succeeded and the buffer
allocation failing, the run is SetupFailed with exit code 1 and no wait was
ever performed. -/
theorem buffer_sizing_and_alloc_failure_witness :
    (mainRun ⟨true, true, true, true, false, true, 1000, fun _ => true⟩).terminal =
        TerminalState.SetupFailed ∧
    (mainRun ⟨true, true, true, true, false, true, 1000, fun _ => true⟩).waitCalls = 0 ∧
    (mainRun ⟨true, true, true, true, false, true, 1000, fun _ => true⟩).exitCode = 1 ∧
    (mainRun ⟨true, true, true, true, false, true, 1000, fun _ => true⟩).bufferAllocated =
      false :=
  (buffer_sizing_and_alloc_failure ⟨true, true, true, true, false, true, 1000, fun _ => true⟩
    (by decide)).2 rfl rfl rfl rfl rfl

/-- C9 against the source: the handler writes the descriptor
(`ctx->eofFrameInfo = *pFrameInfo`, line 14) outside the mutex (the
`lock_guard` of lines 23-26 covers only the flag write), and the control
loop reads the descriptor (`ctx->eofFrameInfo.FrameNr`, line 114) with no
lock held — so it is not the case that every access to the fired flag and
the descriptor is performed under mutual exclusion. -/
theorem descriptor_access_outside_mutex :
    SharedAccess.mk SharedField.descriptor AccessKind.write false ∈ handlerSharedAccesses ∧
    SharedAccess.mk SharedField.descriptor AccessKind.read false ∈
      controlLoopSharedAccesses ∧
    SharedAccess.mk SharedField.firedFlag AccessKind.write true ∈ handlerSharedAccesses ∧
    allSharedAccessesLocked (handlerSharedAccesses ++ controlLoopSharedAccesses) = false := by
  decide

/-- C10: the process exit code is 0 exactly when every setup stage succeeds
(acquisition started) — regardless of whether the loop then completes all
200 frames or stalls on a timeout — and 1 exactly when some setup stage
fails before acquisition starts. -/
theorem exit_code_zero_once_started (env : Env) :
    (mainRun env).exitCode =
      cond (env.openOk && env.registerOk && env.selectOk && env.setupOk &&
        env.allocOk && env.startOk) 0 1 := by
  obtain ⟨o, r, s, st, a, k, e, w⟩ := env
  cases o <;> cases r <;> cases s <;> cases st <;> cases a <;> cases k <;>
    simp [mainRun]
